import Mathlib

/-!
# Fire-tracker: authentication guard and migration engine, shallowly embedded

This file embeds the two core components of `server.js`:

* the authentication endpoint `POST /api/firefighters/authenticate`
  together with `logAuthAttempt` (lines 464-547 of `server.js`), and
* the schema-migration engine `initializeDatabase` / `runMigrations` /
  `migration_v1` / `migration_v2` / `migration_v3` / `insertDefaultData` /
  `getDatabaseVersion` / `setDatabaseVersion` (lines 101-461 of `server.js`),

and proves the spec's claims about them.  SQLite tables are modelled as Lean
lists of rows, the bcrypt primitive as a deterministic injective tagging
function (only its compare/equality behaviour matters to the claims), and
storage faults as explicit boolean fault flags / `Except` errors.
-/

namespace FireTracker

/-- Model of `bcrypt.hash(pin, 10)`.  The real primitive is salted and
non-deterministic; the claims only depend on `bcrypt.compare` agreeing with
the stored hash, so a deterministic injective tag is a faithful model. -/
def bcryptHash (pin : String) : String := "bcrypt$" ++ pin

/-- Model of `await bcrypt.compare(pin, hash)`. -/
def bcryptCompare (pin hash : String) : Bool := hash == bcryptHash pin

/-- One row of the `firefighters` table, restricted to the columns the
authentication endpoint reads or writes.  `failed_attempts` is a nullable
SQLite column (the code guards with `firefighter.failed_attempts || 0`),
hence `Option Nat`; `account_locked` is an integer column used only for its
truthiness, hence `Bool`. -/
structure Firefighter where
  badge : String
  name : String
  pin_hash : String
  failed_attempts : Option Nat
  account_locked : Bool
  last_failed_attempt : Option String
deriving DecidableEq

/-- The success-response body: the firefighter row with the `pin_hash`
field removed, mirroring `const { pin_hash, ...safeFirefighter } =
firefighter`.  By construction this type has no secret-hash field. -/
structure SafeFirefighter where
  badge : String
  name : String
  failed_attempts : Option Nat
  account_locked : Bool
  last_failed_attempt : Option String
deriving DecidableEq

/-- `const { pin_hash, ...safeFirefighter } = firefighter` (server.js:504). -/
def stripPinHash (f : Firefighter) : SafeFirefighter :=
  { badge := f.badge
    name := f.name
    failed_attempts := f.failed_attempts
    account_locked := f.account_locked
    last_failed_attempt := f.last_failed_attempt }

/-- One row of the `auth_logs` table (columns inserted by `logAuthAttempt`;
the autoincrement id and the `CURRENT_TIMESTAMP` default are omitted as they
are set by the store, not the guard). -/
structure AuthLog where
  badge : String
  success : Bool
  ip_address : String
  user_agent : String
  failure_reason : Option String
deriving DecidableEq

/-- The slice of the database state the authentication endpoint touches. -/
structure AuthDB where
  firefighters : List Firefighter
  auth_logs : List AuthLog
deriving DecidableEq

/-- The HTTP responses the authentication endpoint can produce
(server.js:464-536), tagged by status code family. -/
inductive AuthResponse where
  /-- `res.status(400).json({ error })` -/
  | badRequest (error : String)
  /-- `res.status(401).json({ error })` -/
  | unauthorized (error : String)
  /-- `res.status(423).json({ error })` -/
  | locked (error : String)
  /-- `res.status(500).json({ error })` -/
  | serverError (error : String)
  /-- `res.json({ success: true, firefighter: safeFirefighter })` -/
  | ok (firefighter : SafeFirefighter)
deriving DecidableEq

/-- `db.get("SELECT * FROM firefighters WHERE badge = ?", [badge], ...)`:
the first row whose badge matches (badge is the primary key). -/
def lookupFirefighter (d : AuthDB) (badge : String) : Option Firefighter :=
  d.firefighters.find? (fun f => f.badge == badge)

/-- `db.run("UPDATE firefighters SET ... WHERE badge = ?", ...)`:
update every row whose badge matches. -/
def updateFirefighter (d : AuthDB) (badge : String)
    (g : Firefighter → Firefighter) : AuthDB :=
  { d with firefighters :=
      d.firefighters.map (fun f => if f.badge == badge then g f else f) }

/-- `logAuthAttempt` (server.js:539-547).  The INSERT's completion callback
is `() => resolve()`: it ignores any error, so when the underlying insert
fails (`logWriteFails = true`) the log is left unchanged and the caller's
control flow continues exactly as on success. -/
def logAuthAttempt (d : AuthDB) (logWriteFails : Bool) (badge : String)
    (success : Bool) (ipAddress userAgent : String)
    (failureReason : Option String) : AuthDB :=
  if logWriteFails then d
  else { d with auth_logs :=
          d.auth_logs ++ [⟨badge, success, ipAddress, userAgent, failureReason⟩] }

/-- `POST /api/firefighters/authenticate` (server.js:464-536).

* `badge`, `pin`: request body fields; an absent field and the empty string
  are both falsy in `if (!badge || !pin)`, so both are modelled as `""`.
* `now` models `new Date().toISOString()`.
* `lookupFails` models the `db.get` callback receiving an error (the branch
  at server.js:477-480), `logWriteFails` models the `auth_logs` INSERT
  failing inside `logAuthAttempt`.

Returns the updated database state and the HTTP response. -/
def authenticate (d : AuthDB) (badge pin ipAddress userAgent now : String)
    (lookupFails logWriteFails : Bool) : AuthDB × AuthResponse :=
  if badge = "" ∨ pin = "" then
    (logAuthAttempt d logWriteFails badge false ipAddress userAgent
        (some "Missing badge or PIN"),
     .badRequest "Badge and PIN are required")
  else if lookupFails then
    (d, .serverError "Internal server error")
  else
    match lookupFirefighter d badge with
    | none =>
        (logAuthAttempt d logWriteFails badge false ipAddress userAgent
            (some "Badge not found"),
         .unauthorized "Invalid badge number")
    | some firefighter =>
        if firefighter.account_locked then
          (logAuthAttempt d logWriteFails badge false ipAddress userAgent
              (some "Account locked"),
           .locked "Account is locked. Contact administrator.")
        else if bcryptCompare pin firefighter.pin_hash then
          let d1 := updateFirefighter d badge (fun f =>
            { f with failed_attempts := some 0, last_failed_attempt := none })
          (logAuthAttempt d1 logWriteFails badge true ipAddress userAgent none,
           .ok (stripPinHash firefighter))
        else
          let failedAttempts := firefighter.failed_attempts.getD 0 + 1
          let shouldLock : Bool := decide (5 ≤ failedAttempts)
          let d1 := updateFirefighter d badge (fun f =>
            { f with failed_attempts := some failedAttempts
                     last_failed_attempt := some now
                     account_locked := shouldLock })
          let d2 := logAuthAttempt d1 logWriteFails badge false ipAddress
              userAgent (some "Invalid PIN")
          if shouldLock then
            (d2, .locked "Account locked due to multiple failed attempts. Contact administrator.")
          else
            (d2, .unauthorized "Invalid PIN")

/-! ## Migration engine (server.js:98-461)

The store slice the migration engine touches: the `db_version` table
(`none` when the table does not exist), the set of created tables, the
column list of the `firefighters` table, and the four reference-data tables
seeded by `insertDefaultData`. -/

/-- `const CURRENT_DB_VERSION = 3` (server.js:98). -/
def CURRENT_DB_VERSION : Nat := 3

/-- A row of the `stations` table (primary key `name`). -/
structure StationRow where
  name : String
  address : String
  phone : String
deriving DecidableEq

/-- A row of the `station_accounts` table (primary key `station_name`). -/
structure StationAccountRow where
  station_name : String
  password : String
deriving DecidableEq

/-- A seeded row of the `firefighters` table as inserted by
`insertDefaultData` (primary key `badge`). -/
structure PersonnelRow where
  badge : String
  name : String
  rank : String
  station : String
  pin_hash : String
  email : String
deriving DecidableEq

/-- A row of the `activity_categories` table (`category_name` UNIQUE). -/
structure CategoryRow where
  category_name : String
  description : String
  default_hours : Rat
deriving DecidableEq

/-- The slice of database state the migration engine reads and writes. -/
structure MigStore where
  /-- rows of `db_version`; `none` when the table does not exist -/
  dbVersionRows : Option (List Nat)
  /-- names of the other tables that exist -/
  tables : List String
  /-- columns of the `firefighters` table (meaningful once it exists) -/
  firefighterCols : List String
  stations : List StationRow
  stationAccounts : List StationAccountRow
  personnel : List PersonnelRow
  categories : List CategoryRow
deriving DecidableEq

/-- A store with nothing in it: no tables, no rows (a fresh database). -/
def emptyMigStore : MigStore :=
  { dbVersionRows := none
    tables := []
    firefighterCols := []
    stations := []
    stationAccounts := []
    personnel := []
    categories := [] }

/-- `getDatabaseVersion` (server.js:114-132): 0 when the `db_version` table
is absent, otherwise the first row's version (0 when the table is empty). -/
def getDatabaseVersion (s : MigStore) : Nat :=
  match s.dbVersionRows with
  | none => 0
  | some rows => rows.head?.getD 0

/-- `setDatabaseVersion` (server.js:134-156): create `db_version` if
missing, delete all its rows, insert the single row `version`.  The net
effect when every statement succeeds. -/
def setDatabaseVersion (s : MigStore) (version : Nat) : MigStore :=
  { s with dbVersionRows := some [version] }

/-- `CREATE TABLE IF NOT EXISTS t (...)`. -/
def createTableIfNotExists (s : MigStore) (t : String) : MigStore :=
  if t ∈ s.tables then s else { s with tables := s.tables ++ [t] }

/-- Columns of the `firefighters` table as created by `migration_v1`
(server.js:191-205). -/
def firefightersBaseCols : List String :=
  ["badge", "name", "email", "rank", "station", "phone", "hire_date",
   "status", "certifications", "vacation_days_total", "vacation_days_used",
   "created_at", "updated_at"]

/-- `CREATE TABLE IF NOT EXISTS firefighters (...)` with its column list. -/
def createFirefightersTable (s : MigStore) : MigStore :=
  if "firefighters" ∈ s.tables then s
  else { s with tables := s.tables ++ ["firefighters"]
                firefighterCols := firefightersBaseCols }

/-- `migration_v1` (server.js:187-297): create the seven initial tables,
all guarded by IF NOT EXISTS.  None of these statements can fail on
re-application. -/
def migration_v1 (s : MigStore) : MigStore :=
  let s := createFirefightersTable s
  let s := createTableIfNotExists s "incidents"
  let s := createTableIfNotExists s "attendees"
  let s := createTableIfNotExists s "events"
  let s := createTableIfNotExists s "event_attendees"
  let s := createTableIfNotExists s "stations"
  createTableIfNotExists s "station_accounts"

/-- `ALTER TABLE firefighters ADD COLUMN c`.  SQLite has no
"IF NOT EXISTS" for ADD COLUMN: when the column already exists the
statement fails with a duplicate-column-name error.  In the source these
`db.run` calls have no callback, so the error surfaces as an unhandled
`error` event rather than a rejected promise; either way the statement does
not succeed, which is what the `Except` error models. -/
def addFirefighterColumn (s : MigStore) (c : String) :
    Except String MigStore :=
  if c ∈ s.firefighterCols then .error ("duplicate column name: " ++ c)
  else .ok { s with firefighterCols := s.firefighterCols ++ [c] }

/-- `migration_v2` (server.js:300-344): six ALTER TABLE ADD COLUMN
statements (not re-applicable) plus two CREATE TABLE IF NOT EXISTS. -/
def migration_v2 (s : MigStore) : Except String MigStore := do
  let s ← addFirefighterColumn s "pin_hash"
  let s ← addFirefighterColumn s "pin_reset_at"
  let s ← addFirefighterColumn s "pin_reset_by"
  let s ← addFirefighterColumn s "account_locked"
  let s ← addFirefighterColumn s "failed_attempts"
  let s ← addFirefighterColumn s "last_failed_attempt"
  let s := createTableIfNotExists s "auth_logs"
  pure (createTableIfNotExists s "pin_reset_logs")

/-- `migration_v3` (server.js:347-390): three CREATE TABLE IF NOT EXISTS. -/
def migration_v3 (s : MigStore) : MigStore :=
  let s := createTableIfNotExists s "activity_categories"
  let s := createTableIfNotExists s "settings"
  createTableIfNotExists s "audit_log"

/-- `INSERT OR IGNORE`: insert the row unless a row with the same key
already exists. -/
def insertIfAbsent {α : Type} (key : α → String) (rows : List α) (r : α) :
    List α :=
  if rows.any (fun x => key x == key r) then rows else rows ++ [r]

/-- A sequence of `INSERT OR IGNORE` statements, one per seed row. -/
def seedRows {α : Type} (key : α → String) (rows : List α)
    (seeds : List α) : List α :=
  seeds.foldl (insertIfAbsent key) rows

/-- The five default stations (server.js:394-400). -/
def defaultStations : List StationRow :=
  [⟨"Station 1", "123 Fire Station Rd", "555-0001"⟩,
   ⟨"Station 2", "456 Emergency Ave", "555-0002"⟩,
   ⟨"Station 3", "789 Rescue Blvd", "555-0003"⟩,
   ⟨"Station 4", "321 Safety St", "555-0004"⟩,
   ⟨"Station 5", "654 Hero Ln", "555-0005"⟩]

/-- The five default station accounts (server.js:410-416). -/
def defaultStationAccounts : List StationAccountRow :=
  [⟨"Station 1", "station1pass"⟩,
   ⟨"Station 2", "station2pass"⟩,
   ⟨"Station 3", "station3pass"⟩,
   ⟨"Station 4", "station4pass"⟩,
   ⟨"Station 5", "station5pass"⟩]

/-- `person.name.toLowerCase().replace(' ', '.') + '@firedept.gov'`
(server.js:441).  JS `replace` with a string pattern replaces only the
first occurrence; every default name contains exactly one blank, so
replacing all occurrences coincides with it here. -/
def defaultEmail (name : String) : String :=
  (name.toLower.replace " " ".") ++ "@firedept.gov"

/-- The five default personnel rows (server.js:426-444), with each PIN run
through the bcrypt model. -/
def defaultPersonnel : List PersonnelRow :=
  [⟨"001", "John Smith", "Captain", "Station 1", bcryptHash "1234",
    defaultEmail "John Smith"⟩,
   ⟨"002", "Jane Doe", "Lieutenant", "Station 1", bcryptHash "2345",
    defaultEmail "Jane Doe"⟩,
   ⟨"003", "Mike Johnson", "Firefighter", "Station 2", bcryptHash "3456",
    defaultEmail "Mike Johnson"⟩,
   ⟨"004", "Sarah Williams", "Engineer", "Station 2", bcryptHash "4567",
    defaultEmail "Sarah Williams"⟩,
   ⟨"005", "Tom Brown", "Firefighter", "Station 3", bcryptHash "5678",
    defaultEmail "Tom Brown"⟩]

/-- The five default activity categories (server.js:447-453). -/
def defaultCategories : List CategoryRow :=
  [⟨"Fire Training", "Fire suppression and prevention training", 4⟩,
   ⟨"EMS Training", "Emergency medical services training", 4⟩,
   ⟨"Equipment Maintenance", "Equipment checks and maintenance", 2⟩,
   ⟨"Community Event", "Public education and community engagement", 3⟩,
   ⟨"Physical Training", "Physical fitness and conditioning", 1⟩]

/-- `insertDefaultData` (server.js:392-461): seed the four reference
tables with `INSERT OR IGNORE`, keyed by the natural primary key of each
table (station name, account station name, badge, category name). -/
def insertDefaultData (s : MigStore) : MigStore :=
  { s with
    stations := seedRows StationRow.name s.stations defaultStations
    stationAccounts :=
      seedRows StationAccountRow.station_name s.stationAccounts
        defaultStationAccounts
    personnel := seedRows PersonnelRow.badge s.personnel defaultPersonnel
    categories :=
      seedRows CategoryRow.category_name s.categories defaultCategories }

/-- `runMigrations` (server.js:158-184): read the version, apply each
`migration_vi` whose guard `currentVersion < i` holds, then persist
`CURRENT_DB_VERSION`.  Any step error aborts the run before the version
write. -/
def runMigrations (s : MigStore) : Except String MigStore := do
  let currentVersion := getDatabaseVersion s
  let s1 := if currentVersion < 1 then migration_v1 s else s
  let s2 ← if currentVersion < 2 then migration_v2 s1 else pure s1
  let s3 := if currentVersion < 3 then migration_v3 s2 else s2
  pure (setDatabaseVersion s3 CURRENT_DB_VERSION)

/-- `initializeDatabase` (server.js:101-112): `runMigrations` then
`insertDefaultData`; any error propagates. -/
def initializeDatabase (s : MigStore) : Except String MigStore := do
  let s ← runMigrations s
  pure (insertDefaultData s)

/-! ## Interrupted migration runs

To reason about runs that fail partway (claim C6), a `runMigrations`
invocation is decomposed into its ordered storage operations: the guarded
migration steps followed by the three statements of `setDatabaseVersion`
(create the version table if missing, delete its rows, insert the new
version — server.js:134-156 issues these as three separate statements, not
one atomic unit).  A run interrupted after `k` operations executes exactly
the first `k` (stopping early if an operation itself errors, which keeps
the last good state, as an errored statement changes nothing). -/

/-- One storage operation of a `runMigrations` invocation. -/
inductive MigOp where
  | applyV1
  | applyV2
  | applyV3
  /-- `CREATE TABLE IF NOT EXISTS db_version (version INTEGER)` -/
  | versionCreate
  /-- `DELETE FROM db_version` -/
  | versionDelete
  /-- `INSERT INTO db_version (version) VALUES (?)` -/
  | versionInsert (v : Nat)
deriving DecidableEq

/-- Apply one storage operation. -/
def applyOp (s : MigStore) : MigOp → Except String MigStore
  | .applyV1 => .ok (migration_v1 s)
  | .applyV2 => migration_v2 s
  | .applyV3 => .ok (migration_v3 s)
  | .versionCreate =>
      .ok { s with dbVersionRows := some (s.dbVersionRows.getD []) }
  | .versionDelete =>
      match s.dbVersionRows with
      | none => .error "no such table: db_version"
      | some _ => .ok { s with dbVersionRows := some [] }
  | .versionInsert v =>
      match s.dbVersionRows with
      | none => .error "no such table: db_version"
      | some rows => .ok { s with dbVersionRows := some (rows ++ [v]) }

/-- The guarded migration steps a run starting at version `v` applies
(the `if (currentVersion < i)` guards of server.js:163-176). -/
def migrationSteps (v : Nat) : List MigOp :=
  (if v < 1 then [MigOp.applyV1] else []) ++
  (if v < 2 then [MigOp.applyV2] else []) ++
  (if v < 3 then [MigOp.applyV3] else [])

/-- All storage operations of a run starting at version `v`, in order. -/
def migrationOps (v : Nat) : List MigOp :=
  migrationSteps v ++
  [MigOp.versionCreate, MigOp.versionDelete,
   MigOp.versionInsert CURRENT_DB_VERSION]

/-- Execute at most `k` operations, stopping early when one errors. -/
def execOps : MigStore → List MigOp → Nat → MigStore
  | s, _, 0 => s
  | s, [], _ + 1 => s
  | s, op :: ops, k + 1 =>
    match applyOp s op with
    | .error _ => s
    | .ok t => execOps t ops k

/-- A `runMigrations` invocation interrupted after its first `k` storage
operations (a `k` at least the number of operations is an uninterrupted
run). -/
def runInterrupted (s : MigStore) (k : Nat) : MigStore :=
  execOps s (migrationOps (getDatabaseVersion s)) k

/-- A sequence of migration runs, each with its own interruption point. -/
def runSeq (s : MigStore) (ks : List Nat) : MigStore :=
  ks.foldl runInterrupted s

/-- Whether an operation is one of the three migration steps (as opposed
to one of the version-write statements). -/
def isMigrationStep : MigOp → Bool
  | .applyV1 => true
  | .applyV2 => true
  | .applyV3 => true
  | _ => false

/-- The interruption point `k` does not fall in the window after the
version-table DELETE but before the version INSERT: the run either stops
before the delete or reaches the insert. -/
def avoidsVersionWindow (s : MigStore) (k : Nat) : Bool :=
  k != (migrationSteps (getDatabaseVersion s)).length + 2

/-- Every run in the sequence avoids the delete/insert window of the store
it runs against. -/
def goodRunSeq (s : MigStore) : List Nat → Bool
  | [] => true
  | k :: ks => avoidsVersionWindow s k && goodRunSeq (runInterrupted s k) ks

/-! ## Auxiliary definitions used by the statements -/

/-- The inputs of one authentication call. -/
structure AuthCall where
  badge : String
  pin : String
  ipAddress : String
  userAgent : String
  now : String
deriving DecidableEq

/-- Run a sequence of authentication calls (no storage faults), threading
the database state. -/
def runAuthCalls (d : AuthDB) (cs : List AuthCall) : AuthDB :=
  cs.foldl
    (fun d c =>
      (authenticate d c.badge c.pin c.ipAddress c.userAgent c.now
          false false).1)
    d

/-- Whether some row of `rows` has key `k`. -/
def hasKey {α : Type} (key : α → String) (rows : List α) (k : String) :
    Bool :=
  rows.any (fun x => key x == k)

/-! ## Concrete fixtures for witnesses and counterexamples -/

/-- The seeded badge-001 credential record with a fresh counter. -/
def demoFirefighter : Firefighter :=
  { badge := "001"
    name := "John Smith"
    pin_hash := bcryptHash "1234"
    failed_attempts := some 0
    account_locked := false
    last_failed_attempt := none }

/-- A one-record database holding `demoFirefighter`. -/
def demoDB : AuthDB := { firefighters := [demoFirefighter], auth_logs := [] }

/-- Badge 001 one failed attempt away from lockout (counter = 4). -/
def nearLockFirefighter : Firefighter :=
  { demoFirefighter with failed_attempts := some 4 }

/-- A one-record database holding `nearLockFirefighter`. -/
def nearLockDB : AuthDB :=
  { firefighters := [nearLockFirefighter], auth_logs := [] }

/-- Badge 001 already locked out (counter = 5, lockout flag set). -/
def lockedFirefighter : Firefighter :=
  { demoFirefighter with
      failed_attempts := some 5
      account_locked := true
      last_failed_attempt := some "2024-01-01T00:00:00.000Z" }

/-- A one-record database holding `lockedFirefighter`. -/
def lockedDB : AuthDB :=
  { firefighters := [lockedFirefighter], auth_logs := [] }

/-- The store produced by a first successful `initializeDatabase` run on a
fresh database. -/
def seededStore : MigStore :=
  match initializeDatabase emptyMigStore with
  | .ok t => t
  | .error _ => emptyMigStore

/-- The store after `migration_v1` and then `migration_v2` have been
applied to a fresh database (as a partial run that died before the version
write would leave it). -/
def storeV1V2 : MigStore :=
  match migration_v2 (migration_v1 emptyMigStore) with
  | .ok t => t
  | .error _ => emptyMigStore

/-- A store whose recorded version (4) exceeds the code's
`CURRENT_DB_VERSION` (3), as a newer deployment would leave it. -/
def storeV4 : MigStore := { seededStore with dbVersionRows := some [4] }

/-! ## Helper lemmas: the authentication branches -/

theorem updateFirefighter_auth_logs (d : AuthDB) (b : String)
    (g : Firefighter → Firefighter) :
    (updateFirefighter d b g).auth_logs = d.auth_logs := rfl

theorem logAuthAttempt_ok (d : AuthDB) (b : String) (su : Bool)
    (i u : String) (r : Option String) :
    logAuthAttempt d false b su i u r =
      { d with auth_logs := d.auth_logs ++ [⟨b, su, i, u, r⟩] } := rfl

/-- Validation branch (server.js:470-473). -/
theorem authenticate_missing (d : AuthDB) (badge pin i u n : String)
    (lf lw : Bool) (h : badge = "" ∨ pin = "") :
    authenticate d badge pin i u n lf lw =
      (logAuthAttempt d lw badge false i u (some "Missing badge or PIN"),
       .badRequest "Badge and PIN are required") := by
  unfold authenticate
  rw [if_pos h]

/-- Lookup-error branch (server.js:477-480). -/
theorem authenticate_lookup_error (d : AuthDB) (badge pin i u n : String)
    (lw : Bool) (hb : ¬badge = "") (hp : ¬pin = "") :
    authenticate d badge pin i u n true lw =
      (d, .serverError "Internal server error") := by
  unfold authenticate
  rw [if_neg (by tauto)]
  rfl

/-- Unknown-badge branch (server.js:482-485). -/
theorem authenticate_not_found (d : AuthDB) (badge pin i u n : String)
    (lw : Bool) (hb : ¬badge = "") (hp : ¬pin = "")
    (hf : lookupFirefighter d badge = none) :
    authenticate d badge pin i u n false lw =
      (logAuthAttempt d lw badge false i u (some "Badge not found"),
       .unauthorized "Invalid badge number") := by
  unfold authenticate
  rw [if_neg (by tauto)]
  simp only [Bool.false_eq_true, if_false, hf]

/-- Locked-account branch (server.js:487-490). -/
theorem authenticate_locked (d : AuthDB) (badge pin i u n : String)
    (lw : Bool) (f : Firefighter) (hb : ¬badge = "") (hp : ¬pin = "")
    (hf : lookupFirefighter d badge = some f)
    (hl : f.account_locked = true) :
    authenticate d badge pin i u n false lw =
      (logAuthAttempt d lw badge false i u (some "Account locked"),
       .locked "Account is locked. Contact administrator.") := by
  unfold authenticate
  rw [if_neg (by tauto)]
  simp only [Bool.false_eq_true, if_false, hf, hl, if_true]

/-- Success branch (server.js:495-508). -/
theorem authenticate_success (d : AuthDB) (badge pin i u n : String)
    (lw : Bool) (f : Firefighter) (hb : ¬badge = "") (hp : ¬pin = "")
    (hf : lookupFirefighter d badge = some f)
    (hl : f.account_locked = false)
    (hok : bcryptCompare pin f.pin_hash = true) :
    authenticate d badge pin i u n false lw =
      (logAuthAttempt
        (updateFirefighter d badge (fun g =>
          { g with failed_attempts := some 0, last_failed_attempt := none }))
        lw badge true i u none,
       .ok (stripPinHash f)) := by
  unfold authenticate
  rw [if_neg (by tauto)]
  simp only [Bool.false_eq_true, if_false, hf, hl, hok, if_true]

/-- Failed-verification branch (server.js:509-529). -/
theorem authenticate_wrong_pin (d : AuthDB) (badge pin i u n : String)
    (lw : Bool) (f : Firefighter) (hb : ¬badge = "") (hp : ¬pin = "")
    (hf : lookupFirefighter d badge = some f)
    (hl : f.account_locked = false)
    (hw : bcryptCompare pin f.pin_hash = false) :
    authenticate d badge pin i u n false lw =
      (logAuthAttempt
        (updateFirefighter d badge (fun g =>
          { g with
              failed_attempts := some (f.failed_attempts.getD 0 + 1)
              last_failed_attempt := some n
              account_locked := decide (5 ≤ f.failed_attempts.getD 0 + 1) }))
        lw badge false i u (some "Invalid PIN"),
       if 5 ≤ f.failed_attempts.getD 0 + 1 then
         .locked "Account locked due to multiple failed attempts. Contact administrator."
       else .unauthorized "Invalid PIN") := by
  unfold authenticate
  rw [if_neg (by tauto)]
  simp only [Bool.false_eq_true, if_false, hf, hl, hw, if_true,
    decide_eq_true_eq]
  by_cases h5 : 5 ≤ f.failed_attempts.getD 0 + 1 <;> simp [h5]

/-- A badge-preserving per-row update commutes with badge lookup. -/
theorem find_map_badge (l : List Firefighter) (b : String)
    (g : Firefighter → Firefighter) (hg : ∀ f, (g f).badge = f.badge) :
    (l.map (fun f => if f.badge == b then g f else f)).find?
        (fun f => f.badge == b) =
      (l.find? (fun f => f.badge == b)).map g := by
  induction l with
  | nil => rfl
  | cons f l ih =>
    simp only [List.map_cons, List.find?_cons]
    by_cases h : f.badge == b
    · simp [h, hg f]
    · have h3 : (f.badge == b) = false := by simpa using h
      rw [if_neg h, h3]
      exact ih

theorem lookupFirefighter_update (d : AuthDB) (b : String)
    (g : Firefighter → Firefighter) (hg : ∀ f, (g f).badge = f.badge) :
    lookupFirefighter (updateFirefighter d b g) b =
      (lookupFirefighter d b).map g :=
  find_map_badge d.firefighters b g hg

/-- Every authentication call with no storage fault appends exactly one
entry to the attempt log. -/
theorem authenticate_appends_one_log (d : AuthDB)
    (badge pin i u n : String) :
    ∃ e : AuthLog,
      ((authenticate d badge pin i u n false false).1).auth_logs =
        d.auth_logs ++ [e] := by
  by_cases hv : badge = "" ∨ pin = ""
  · rw [authenticate_missing d badge pin i u n false false hv]
    exact ⟨_, rfl⟩
  · push_neg at hv
    obtain ⟨hb, hp⟩ := hv
    cases hf : lookupFirefighter d badge with
    | none =>
        rw [authenticate_not_found d badge pin i u n false hb hp hf]
        exact ⟨_, rfl⟩
    | some f =>
        by_cases hl : f.account_locked
        · rw [authenticate_locked d badge pin i u n false f hb hp hf hl]
          exact ⟨_, rfl⟩
        · by_cases hc : bcryptCompare pin f.pin_hash
          · rw [authenticate_success d badge pin i u n false f hb hp hf
              (by simpa using hl) hc]
            exact ⟨_, rfl⟩
          · rw [authenticate_wrong_pin d badge pin i u n false f hb hp hf
              (by simpa using hl) (by simpa using hc)]
            exact ⟨_, rfl⟩

/-- Sequential calls append exactly one entry each. -/
theorem runAuthCalls_appends (d : AuthDB) (cs : List AuthCall) :
    ∃ es : List AuthLog, es.length = cs.length ∧
      (runAuthCalls d cs).auth_logs = d.auth_logs ++ es := by
  induction cs generalizing d with
  | nil => exact ⟨[], rfl, by simp [runAuthCalls]⟩
  | cons c cs ih =>
    obtain ⟨e, he⟩ := authenticate_appends_one_log d c.badge c.pin
      c.ipAddress c.userAgent c.now
    obtain ⟨es, hlen, hes⟩ :=
      ih (authenticate d c.badge c.pin c.ipAddress c.userAgent c.now
          false false).1
    refine ⟨e :: es, by simp [hlen], ?_⟩
    have : runAuthCalls d (c :: cs) =
        runAuthCalls
          (authenticate d c.badge c.pin c.ipAddress c.userAgent c.now
            false false).1 cs := rfl
    rw [this, hes, he]
    simp

/-! ## Helper lemmas: the migration engine -/

theorem createTableIfNotExists_dbVersionRows (s : MigStore) (t : String) :
    (createTableIfNotExists s t).dbVersionRows = s.dbVersionRows := by
  unfold createTableIfNotExists
  split <;> rfl

theorem createFirefightersTable_dbVersionRows (s : MigStore) :
    (createFirefightersTable s).dbVersionRows = s.dbVersionRows := by
  unfold createFirefightersTable
  split <;> rfl

theorem migration_v1_dbVersionRows (s : MigStore) :
    (migration_v1 s).dbVersionRows = s.dbVersionRows := by
  unfold migration_v1
  simp only [createTableIfNotExists_dbVersionRows,
    createFirefightersTable_dbVersionRows]

theorem migration_v3_dbVersionRows (s : MigStore) :
    (migration_v3 s).dbVersionRows = s.dbVersionRows := by
  unfold migration_v3
  simp only [createTableIfNotExists_dbVersionRows]

theorem addFirefighterColumn_dbVersionRows {s t : MigStore} {c : String}
    (h : addFirefighterColumn s c = .ok t) :
    t.dbVersionRows = s.dbVersionRows := by
  unfold addFirefighterColumn at h
  split at h
  · cases h
  · cases h
    rfl

theorem okBind {ε α β : Type} (a : α) (f : α → Except ε β) :
    (Except.ok a : Except ε α) >>= f = f a := rfl

theorem errorBind {ε α β : Type} (e : ε) (f : α → Except ε β) :
    (Except.error e : Except ε α) >>= f = Except.error e := rfl

theorem migration_v2_dbVersionRows {s t : MigStore}
    (h : migration_v2 s = .ok t) : t.dbVersionRows = s.dbVersionRows := by
  unfold migration_v2 at h
  cases h1 : addFirefighterColumn s "pin_hash" with
  | error e => rw [h1, errorBind] at h; cases h
  | ok s1 =>
  rw [h1, okBind] at h
  cases h2 : addFirefighterColumn s1 "pin_reset_at" with
  | error e => rw [h2, errorBind] at h; cases h
  | ok s2 =>
  rw [h2, okBind] at h
  cases h3 : addFirefighterColumn s2 "pin_reset_by" with
  | error e => rw [h3, errorBind] at h; cases h
  | ok s3 =>
  rw [h3, okBind] at h
  cases h4 : addFirefighterColumn s3 "account_locked" with
  | error e => rw [h4, errorBind] at h; cases h
  | ok s4 =>
  rw [h4, okBind] at h
  cases h5 : addFirefighterColumn s4 "failed_attempts" with
  | error e => rw [h5, errorBind] at h; cases h
  | ok s5 =>
  rw [h5, okBind] at h
  cases h6 : addFirefighterColumn s5 "last_failed_attempt" with
  | error e => rw [h6, errorBind] at h; cases h
  | ok s6 =>
  rw [h6, okBind] at h
  cases h
  rw [createTableIfNotExists_dbVersionRows, createTableIfNotExists_dbVersionRows,
    addFirefighterColumn_dbVersionRows h6, addFirefighterColumn_dbVersionRows h5,
    addFirefighterColumn_dbVersionRows h4, addFirefighterColumn_dbVersionRows h3,
    addFirefighterColumn_dbVersionRows h2, addFirefighterColumn_dbVersionRows h1]

theorem insertDefaultData_dbVersionRows (s : MigStore) :
    (insertDefaultData s).dbVersionRows = s.dbVersionRows := rfl

theorem hasKey_insertIfAbsent_mono {α : Type} (key : α → String)
    (rows : List α) (r : α) (k : String) (h : hasKey key rows k = true) :
    hasKey key (insertIfAbsent key rows r) k = true := by
  unfold insertIfAbsent
  split
  · exact h
  · unfold hasKey at h ⊢
    simp only [List.any_append, Bool.or_eq_true]
    exact Or.inl h

theorem hasKey_insertIfAbsent_self {α : Type} (key : α → String)
    (rows : List α) (r : α) :
    hasKey key (insertIfAbsent key rows r) (key r) = true := by
  unfold insertIfAbsent hasKey
  split
  · next h => exact h
  · simp [List.any_append]

theorem hasKey_seedRows_mono {α : Type} (key : α → String)
    (seeds : List α) (rows : List α) (k : String)
    (h : hasKey key rows k = true) :
    hasKey key (seedRows key rows seeds) k = true := by
  induction seeds generalizing rows with
  | nil => exact h
  | cons a as ih =>
    exact ih (insertIfAbsent key rows a)
      (hasKey_insertIfAbsent_mono key rows a k h)

theorem hasKey_seedRows_of_mem {α : Type} (key : α → String)
    (seeds : List α) (rows : List α) (r : α) (hr : r ∈ seeds) :
    hasKey key (seedRows key rows seeds) (key r) = true := by
  induction seeds generalizing rows with
  | nil => cases hr
  | cons a as ih =>
    rcases List.mem_cons.1 hr with h | h
    · subst h
      exact hasKey_seedRows_mono key as (insertIfAbsent key rows r) (key r)
        (hasKey_insertIfAbsent_self key rows r)
    · exact ih (insertIfAbsent key rows a) h

theorem insertIfAbsent_of_hasKey {α : Type} (key : α → String)
    (rows : List α) (r : α) (h : hasKey key rows (key r) = true) :
    insertIfAbsent key rows r = rows := by
  unfold insertIfAbsent
  exact if_pos h

theorem seedRows_of_all_hasKey {α : Type} (key : α → String)
    (seeds : List α) (rows : List α)
    (h : ∀ r ∈ seeds, hasKey key rows (key r) = true) :
    seedRows key rows seeds = rows := by
  induction seeds with
  | nil => rfl
  | cons a as ih =>
    have ha : insertIfAbsent key rows a = rows :=
      insertIfAbsent_of_hasKey key rows a (h a (List.mem_cons_self a as))
    show seedRows key (insertIfAbsent key rows a) as = rows
    rw [ha]
    exact ih (fun r hr => h r (List.mem_cons_of_mem a hr))

theorem seedRows_idem {α : Type} (key : α → String)
    (seeds : List α) (rows : List α) :
    seedRows key (seedRows key rows seeds) seeds = seedRows key rows seeds :=
  seedRows_of_all_hasKey key seeds _
    (fun r hr => hasKey_seedRows_of_mem key seeds rows r hr)

theorem insertDefaultData_idem (s : MigStore) :
    insertDefaultData (insertDefaultData s) = insertDefaultData s := by
  unfold insertDefaultData
  simp only [seedRows_idem]

theorem bind_pure_ok {ε α β : Type} {x : Except ε α} {g : α → β} {u : β}
    (h : (x >>= fun a => pure (g a)) = .ok u) :
    ∃ a, x = .ok a ∧ g a = u := by
  cases x with
  | error e => rw [errorBind] at h; cases h
  | ok a =>
    rw [okBind] at h
    exact ⟨a, rfl, by cases h; rfl⟩

theorem setDatabaseVersion_self {s : MigStore} {v : Nat}
    (h : s.dbVersionRows = some [v]) : setDatabaseVersion s v = s := by
  unfold setDatabaseVersion
  cases s
  simp_all

theorem runMigrations_ok_dbVersionRows {s u : MigStore}
    (h : runMigrations s = .ok u) :
    u.dbVersionRows = some [CURRENT_DB_VERSION] := by
  simp only [runMigrations] at h
  by_cases hc : getDatabaseVersion s < 2
  · rw [if_pos hc] at h
    obtain ⟨s2, _, hu⟩ := bind_pure_ok h
    rw [← hu]
    rfl
  · rw [if_neg hc] at h
    obtain ⟨s2, _, hu⟩ := bind_pure_ok h
    rw [← hu]
    rfl

theorem runMigrations_current {t : MigStore}
    (h : getDatabaseVersion t = CURRENT_DB_VERSION) :
    runMigrations t = .ok (setDatabaseVersion t CURRENT_DB_VERSION) := by
  simp [runMigrations, h, CURRENT_DB_VERSION]
  rfl

theorem execOps_nil (s : MigStore) (k : Nat) : execOps s [] k = s := by
  cases k <;> rfl

theorem getDatabaseVersion_eq_of_rows {s t : MigStore}
    (h : t.dbVersionRows = s.dbVersionRows) :
    getDatabaseVersion t = getDatabaseVersion s := by
  unfold getDatabaseVersion
  rw [h]

/-- A migration step that succeeds does not change the recorded version. -/
theorem applyOp_step_version {s t : MigStore} {op : MigOp}
    (hstep : isMigrationStep op = true) (h : applyOp s op = .ok t) :
    getDatabaseVersion t = getDatabaseVersion s := by
  cases op with
  | applyV1 =>
      have happ : applyOp s MigOp.applyV1 = .ok (migration_v1 s) := rfl
      rw [happ] at h
      injection h with ht
      rw [← ht]
      exact getDatabaseVersion_eq_of_rows (migration_v1_dbVersionRows s)
  | applyV2 =>
      have happ : applyOp s MigOp.applyV2 = migration_v2 s := rfl
      rw [happ] at h
      exact getDatabaseVersion_eq_of_rows (migration_v2_dbVersionRows h)
  | applyV3 =>
      have happ : applyOp s MigOp.applyV3 = .ok (migration_v3 s) := rfl
      rw [happ] at h
      injection h with ht
      rw [← ht]
      exact getDatabaseVersion_eq_of_rows (migration_v3_dbVersionRows s)
  | versionCreate => cases hstep
  | versionDelete => cases hstep
  | versionInsert v => cases hstep

theorem mem_migrationSteps_isStep (v : Nat) (op : MigOp)
    (h : op ∈ migrationSteps v) : isMigrationStep op = true := by
  unfold migrationSteps at h
  rcases List.mem_append.1 h with h | h
  · rcases List.mem_append.1 h with h | h <;>
      (split at h <;> simp_all [isMigrationStep])
  · split at h <;> simp_all [isMigrationStep]

/-- Interrupting a run before the version-table DELETE leaves the recorded
version unchanged. -/
theorem execOps_version_eq (ms : List MigOp) (s : MigStore) (k : Nat)
    (hms : ∀ op ∈ ms, isMigrationStep op = true)
    (hk : k ≤ ms.length + 1) :
    getDatabaseVersion
        (execOps s
          (ms ++ [MigOp.versionCreate, MigOp.versionDelete,
            MigOp.versionInsert CURRENT_DB_VERSION]) k) =
      getDatabaseVersion s := by
  induction ms generalizing s k with
  | nil =>
    have hk2 : k = 0 ∨ k = 1 := by simp at hk; omega
    rcases hk2 with rfl | rfl
    · rfl
    · show getDatabaseVersion
          (execOps s [MigOp.versionCreate, MigOp.versionDelete,
            MigOp.versionInsert CURRENT_DB_VERSION] 1) = getDatabaseVersion s
      cases hr : s.dbVersionRows with
      | none => simp [execOps, applyOp, getDatabaseVersion, hr]
      | some rows => simp [execOps, applyOp, getDatabaseVersion, hr]
  | cons op ms ih =>
    cases k with
    | zero => rfl
    | succ k =>
      have hop := hms op (List.mem_cons_self op ms)
      cases hA : applyOp s op with
      | error e => simp [execOps, hA]
      | ok t =>
        have hstep : execOps s
            ((op :: ms) ++ [MigOp.versionCreate, MigOp.versionDelete,
              MigOp.versionInsert CURRENT_DB_VERSION]) (k + 1) =
            execOps t
              (ms ++ [MigOp.versionCreate, MigOp.versionDelete,
                MigOp.versionInsert CURRENT_DB_VERSION]) k := by
          simp [execOps, hA]
        rw [hstep,
          ih t k (fun o ho => hms o (List.mem_cons_of_mem op ho))
            (by simpa using Nat.le_of_succ_le_succ hk)]
        exact applyOp_step_version hop hA

/-- A run that either completes the version write or stops on a failing
migration step leaves the version unchanged or sets it to
`CURRENT_DB_VERSION`. -/
theorem execOps_version_full (ms : List MigOp) (s : MigStore) (k : Nat)
    (hms : ∀ op ∈ ms, isMigrationStep op = true)
    (hk : ms.length + 3 ≤ k) :
    getDatabaseVersion
        (execOps s
          (ms ++ [MigOp.versionCreate, MigOp.versionDelete,
            MigOp.versionInsert CURRENT_DB_VERSION]) k) =
      getDatabaseVersion s ∨
    getDatabaseVersion
        (execOps s
          (ms ++ [MigOp.versionCreate, MigOp.versionDelete,
            MigOp.versionInsert CURRENT_DB_VERSION]) k) =
      CURRENT_DB_VERSION := by
  induction ms generalizing s k with
  | nil =>
    right
    obtain ⟨m, rfl⟩ : ∃ m, k = m + 1 + 1 + 1 := ⟨k - 3, by omega⟩
    show getDatabaseVersion
        (execOps s [MigOp.versionCreate, MigOp.versionDelete,
          MigOp.versionInsert CURRENT_DB_VERSION] (m + 1 + 1 + 1)) =
      CURRENT_DB_VERSION
    simp [execOps, applyOp, execOps_nil, getDatabaseVersion,
      CURRENT_DB_VERSION]
  | cons op ms ih =>
    cases k with
    | zero => omega
    | succ k =>
      have hop := hms op (List.mem_cons_self op ms)
      cases hA : applyOp s op with
      | error e => left; simp [execOps, hA]
      | ok t =>
        have hstep : execOps s
            ((op :: ms) ++ [MigOp.versionCreate, MigOp.versionDelete,
              MigOp.versionInsert CURRENT_DB_VERSION]) (k + 1) =
            execOps t
              (ms ++ [MigOp.versionCreate, MigOp.versionDelete,
                MigOp.versionInsert CURRENT_DB_VERSION]) k := by
          simp [execOps, hA]
        rw [hstep]
        rcases ih t k (fun o ho => hms o (List.mem_cons_of_mem op ho))
            (by simp at hk; omega) with h | h
        · left; rw [h]; exact applyOp_step_version hop hA
        · right; exact h

/-- One run whose interruption point avoids the delete/insert window keeps
the version monotone and at most `CURRENT_DB_VERSION`. -/
theorem runInterrupted_version_step (s : MigStore) (k : Nat)
    (hv : getDatabaseVersion s ≤ CURRENT_DB_VERSION)
    (hk : avoidsVersionWindow s k = true) :
    getDatabaseVersion s ≤ getDatabaseVersion (runInterrupted s k) ∧
    getDatabaseVersion (runInterrupted s k) ≤ CURRENT_DB_VERSION := by
  have hms : ∀ op ∈ migrationSteps (getDatabaseVersion s),
      isMigrationStep op = true :=
    fun op h => mem_migrationSteps_isStep (getDatabaseVersion s) op h
  have hne : k ≠ (migrationSteps (getDatabaseVersion s)).length + 2 := by
    simpa [avoidsVersionWindow] using hk
  unfold runInterrupted migrationOps
  rcases Nat.lt_or_ge k ((migrationSteps (getDatabaseVersion s)).length + 2)
      with hlt | hge
  · rw [execOps_version_eq (migrationSteps (getDatabaseVersion s)) s k hms
      (by omega)]
    exact ⟨Nat.le_refl _, hv⟩
  · rcases execOps_version_full (migrationSteps (getDatabaseVersion s)) s k
        hms (by omega) with h | h
    · rw [h]; exact ⟨Nat.le_refl _, hv⟩
    · rw [h]; exact ⟨hv, Nat.le_refl _⟩

theorem lookupFirefighter_log (d : AuthDB) (lw : Bool) (b : String)
    (su : Bool) (i u : String) (r : Option String) (b2 : String) :
    lookupFirefighter (logAuthAttempt d lw b su i u r) b2 =
      lookupFirefighter d b2 := by
  unfold logAuthAttempt
  split <;> rfl

theorem runSeq_version_monotone (ks : List Nat) :
    ∀ s : MigStore, getDatabaseVersion s ≤ CURRENT_DB_VERSION →
      goodRunSeq s ks = true →
      getDatabaseVersion s ≤ getDatabaseVersion (runSeq s ks) := by
  induction ks with
  | nil => exact fun s _ _ => Nat.le_refl _
  | cons k ks ih =>
    intro s hv hg
    simp only [goodRunSeq, Bool.and_eq_true] at hg
    obtain ⟨h1, h2⟩ := hg
    have step := runInterrupted_version_step s k hv h1
    have hfold : runSeq s (k :: ks) = runSeq (runInterrupted s k) ks := rfl
    rw [hfold]
    exact Nat.le_trans step.1 (ih (runInterrupted s k) step.2 h2)

/-! ## The claims -/

/-- C1: for every authentication call on an unlocked credential record
whose PIN verification fails, the stored failed-attempt counter becomes
its prior value plus one, the lockout flag is set to true exactly when the
new counter reaches or exceeds the threshold 5, and in the lockout case
the response is the 423 lockout error rather than the generic invalid-PIN
error (otherwise the 401 invalid-PIN error). -/
theorem C1_failed_attempt_increment_and_lockout
    (d : AuthDB) (badge pin i u n : String) (f : Firefighter)
    (hb : ¬badge = "") (hp : ¬pin = "")
    (hf : lookupFirefighter d badge = some f)
    (hl : f.account_locked = false)
    (hw : bcryptCompare pin f.pin_hash = false) :
    lookupFirefighter (authenticate d badge pin i u n false false).1 badge =
      some { f with
        failed_attempts := some (f.failed_attempts.getD 0 + 1)
        last_failed_attempt := some n
        account_locked := decide (5 ≤ f.failed_attempts.getD 0 + 1) } ∧
    (5 ≤ f.failed_attempts.getD 0 + 1 →
      (authenticate d badge pin i u n false false).2 =
        .locked "Account locked due to multiple failed attempts. Contact administrator.") ∧
    (f.failed_attempts.getD 0 + 1 < 5 →
      (authenticate d badge pin i u n false false).2 =
        .unauthorized "Invalid PIN") := by
  rw [authenticate_wrong_pin d badge pin i u n false f hb hp hf hl hw]
  refine ⟨?_, fun h5 => ?_, fun h5 => ?_⟩
  · rw [show ((logAuthAttempt
        (updateFirefighter d badge (fun g =>
          { g with
              failed_attempts := some (f.failed_attempts.getD 0 + 1)
              last_failed_attempt := some n
              account_locked := decide (5 ≤ f.failed_attempts.getD 0 + 1) }))
        false badge false i u (some "Invalid PIN"),
       if 5 ≤ f.failed_attempts.getD 0 + 1 then
         AuthResponse.locked
           "Account locked due to multiple failed attempts. Contact administrator."
       else AuthResponse.unauthorized "Invalid PIN").1 =
      logAuthAttempt
        (updateFirefighter d badge (fun g =>
          { g with
              failed_attempts := some (f.failed_attempts.getD 0 + 1)
              last_failed_attempt := some n
              account_locked := decide (5 ≤ f.failed_attempts.getD 0 + 1) }))
        false badge false i u (some "Invalid PIN")) from rfl,
      lookupFirefighter_log,
      lookupFirefighter_update d badge
        (fun g =>
          { g with
              failed_attempts := some (f.failed_attempts.getD 0 + 1)
              last_failed_attempt := some n
              account_locked := decide (5 ≤ f.failed_attempts.getD 0 + 1) })
        (fun g => rfl), hf]
    rfl
  · rw [if_pos h5]
  · rw [if_neg (by omega)]

/-- C1 witness: badge 001 at counter 4; a single wrong-PIN attempt yields
counter 5, lockout flag true, and the 423 lockout response. -/
theorem C1_witness :
    (¬"001" = "") ∧ (¬"9999" = "") ∧
    lookupFirefighter nearLockDB "001" = some nearLockFirefighter ∧
    nearLockFirefighter.account_locked = false ∧
    bcryptCompare "9999" nearLockFirefighter.pin_hash = false ∧
    lookupFirefighter
        (authenticate nearLockDB "001" "9999" "ip" "ua" "t1" false false).1
        "001" =
      some { nearLockFirefighter with
        failed_attempts := some 5
        last_failed_attempt := some "t1"
        account_locked := true } ∧
    (authenticate nearLockDB "001" "9999" "ip" "ua" "t1" false false).2 =
      .locked "Account locked due to multiple failed attempts. Contact administrator." := by
  have h := C1_failed_attempt_increment_and_lockout nearLockDB "001" "9999"
    "ip" "ua" "t1" nearLockFirefighter (by decide) (by decide) (by decide)
    (by decide) (by decide)
  exact ⟨by decide, by decide, by decide, by decide, by decide,
    h.1, h.2.1 (by decide)⟩

/-- C2: every authentication call (success, wrong PIN, unknown badge,
locked account, or missing input) appends exactly one entry to the attempt
log, and any N sequential calls append exactly N entries, leaving all
existing entries untouched. -/
theorem C2_one_log_entry_per_call (d : AuthDB) (c : AuthCall)
    (cs : List AuthCall) :
    (∃ e : AuthLog,
      ((authenticate d c.badge c.pin c.ipAddress c.userAgent c.now
          false false).1).auth_logs = d.auth_logs ++ [e]) ∧
    (∃ es : List AuthLog, es.length = cs.length ∧
      (runAuthCalls d cs).auth_logs = d.auth_logs ++ es) :=
  ⟨authenticate_appends_one_log d c.badge c.pin c.ipAddress c.userAgent
      c.now,
   runAuthCalls_appends d cs⟩

/-- C3: a call against a locked record is rejected with the distinct 423
locked status before the PIN is verified (hence for every supplied PIN,
correct or not); the credential records are left entirely unchanged and
exactly one failure entry with the locked reason is logged. -/
theorem C3_locked_account_rejected
    (d : AuthDB) (badge pin i u n : String) (f : Firefighter)
    (hb : ¬badge = "") (hp : ¬pin = "")
    (hf : lookupFirefighter d badge = some f)
    (hl : f.account_locked = true) :
    authenticate d badge pin i u n false false =
      ({ d with auth_logs := d.auth_logs ++
          [⟨badge, false, i, u, some "Account locked"⟩] },
       .locked "Account is locked. Contact administrator.") := by
  rw [authenticate_locked d badge pin i u n false f hb hp hf hl]
  rfl

/-- C3 witness: the locked badge 001 with its correct PIN still gets the
locked response and no record mutation. -/
theorem C3_witness :
    (¬"001" = "") ∧ (¬"1234" = "") ∧
    lookupFirefighter lockedDB "001" = some lockedFirefighter ∧
    lockedFirefighter.account_locked = true ∧
    authenticate lockedDB "001" "1234" "ip" "ua" "t1" false false =
      ({ lockedDB with auth_logs := lockedDB.auth_logs ++
          [⟨"001", false, "ip", "ua", some "Account locked"⟩] },
       .locked "Account is locked. Contact administrator.") :=
  ⟨by decide, by decide, by decide, by decide,
   C3_locked_account_rejected lockedDB "001" "1234" "ip" "ua" "t1"
     lockedFirefighter (by decide) (by decide) (by decide) (by decide)⟩

/-- C4: on successful verification the stored counter is reset to 0, the
last-failure timestamp is cleared, and the response carries the credential
record with the secret hash stripped (the response type has no hash field
by construction, mirroring the rest-destructuring in the code); one
success entry is logged. -/
theorem C4_success_resets_and_strips
    (d : AuthDB) (badge pin i u n : String) (f : Firefighter)
    (hb : ¬badge = "") (hp : ¬pin = "")
    (hf : lookupFirefighter d badge = some f)
    (hl : f.account_locked = false)
    (hok : bcryptCompare pin f.pin_hash = true) :
    lookupFirefighter (authenticate d badge pin i u n false false).1 badge =
      some { f with failed_attempts := some 0, last_failed_attempt := none } ∧
    (authenticate d badge pin i u n false false).2 =
      .ok (stripPinHash f) ∧
    ((authenticate d badge pin i u n false false).1).auth_logs =
      d.auth_logs ++ [⟨badge, true, i, u, none⟩] := by
  rw [authenticate_success d badge pin i u n false f hb hp hf hl hok]
  refine ⟨?_, rfl, rfl⟩
  rw [show ((logAuthAttempt
      (updateFirefighter d badge (fun g =>
        { g with failed_attempts := some 0, last_failed_attempt := none }))
      false badge true i u none,
     AuthResponse.ok (stripPinHash f)).1 =
    logAuthAttempt
      (updateFirefighter d badge (fun g =>
        { g with failed_attempts := some 0, last_failed_attempt := none }))
      false badge true i u none) from rfl,
    lookupFirefighter_log,
    lookupFirefighter_update d badge
      (fun g =>
        { g with failed_attempts := some 0, last_failed_attempt := none })
      (fun g => rfl), hf]
  rfl

/-- C4 witness: badge 001 with the correct PIN 1234. -/
theorem C4_witness :
    (¬"001" = "") ∧ (¬"1234" = "") ∧
    lookupFirefighter demoDB "001" = some demoFirefighter ∧
    demoFirefighter.account_locked = false ∧
    bcryptCompare "1234" demoFirefighter.pin_hash = true ∧
    (authenticate demoDB "001" "1234" "ip" "ua" "t1" false false).2 =
      .ok (stripPinHash demoFirefighter) := by
  have h := C4_success_resets_and_strips demoDB "001" "1234" "ip" "ua" "t1"
    demoFirefighter (by decide) (by decide) (by decide) (by decide)
    (by decide)
  exact ⟨by decide, by decide, by decide, by decide, by decide, h.2.1⟩

/-- C5: running the migration engine (migrations plus reference-data
seeding) a second time on the store a successful run produced leaves the
store observably unchanged: the same schema version and the very same
reference-data rows, with no duplicates. -/
theorem C5_initializeDatabase_idempotent (s t : MigStore)
    (h : initializeDatabase s = .ok t) : initializeDatabase t = .ok t := by
  simp only [initializeDatabase] at h
  obtain ⟨w, hw, ht⟩ := bind_pure_ok h
  have hver : t.dbVersionRows = some [CURRENT_DB_VERSION] := by
    rw [← ht, insertDefaultData_dbVersionRows]
    exact runMigrations_ok_dbVersionRows hw
  have hv : getDatabaseVersion t = CURRENT_DB_VERSION := by
    unfold getDatabaseVersion
    rw [hver]
    rfl
  simp only [initializeDatabase, runMigrations_current hv, okBind]
  rw [setDatabaseVersion_self hver, ← ht, insertDefaultData_idem]
  rfl

/-- C5 witness: a fresh store; the first run yields `seededStore`, and the
second run yields it again unchanged. -/
theorem C5_witness :
    initializeDatabase emptyMigStore = .ok seededStore ∧
    initializeDatabase seededStore = .ok seededStore :=
  ⟨rfl,
   C5_initializeDatabase_idempotent emptyMigStore seededStore rfl⟩

/-- C6 counterexample: the recorded schema version can decrease.  First, a
run against the fully migrated store that is interrupted after the
version-table DELETE but before the INSERT drops the recorded version from
3 to 0.  Second, a completed run against a store recorded at version 4
rewrites it to `CURRENT_DB_VERSION = 3`. -/
theorem C6_version_decrease_counterexample :
    getDatabaseVersion (runInterrupted seededStore 2) <
      getDatabaseVersion seededStore ∧
    getDatabaseVersion (runInterrupted storeV4 3) <
      getDatabaseVersion storeV4 := by
  constructor <;> decide

/-- C6 (amended): for any sequence of migration runs started from a
recorded version at most `CURRENT_DB_VERSION`, in which no run is
interrupted in the window after the version-table DELETE and before the
version INSERT, the recorded version never decreases (runs interrupted
anywhere else, including runs stopped by a failing migration step, are
allowed). -/
theorem C6_version_monotone_amended (s : MigStore) (ks : List Nat)
    (hv : getDatabaseVersion s ≤ CURRENT_DB_VERSION)
    (hg : goodRunSeq s ks = true) :
    getDatabaseVersion s ≤ getDatabaseVersion (runSeq s ks) :=
  runSeq_version_monotone ks s hv hg

/-- C6 witness: two benign runs against the fully migrated store. -/
theorem C6_witness :
    getDatabaseVersion seededStore ≤ CURRENT_DB_VERSION ∧
    goodRunSeq seededStore [0, 6] = true ∧
    getDatabaseVersion seededStore ≤
      getDatabaseVersion (runSeq seededStore [0, 6]) :=
  ⟨by decide, by decide,
   C6_version_monotone_amended seededStore [0, 6] (by decide) (by decide)⟩

/-- C7: re-applying `migration_v2` to a store it has already been applied
to does not succeed: the first `ALTER TABLE firefighters ADD COLUMN
pin_hash` fails with a duplicate-column error, because SQLite's ADD COLUMN
has no IF-NOT-EXISTS guard.  The first application succeeds; the second
errors instead of being the identity. -/
theorem C7_migration_v2_reapply_fails :
    migration_v2 (migration_v1 emptyMigStore) = .ok storeV1V2 ∧
    migration_v2 storeV1V2 = .error "duplicate column name: pin_hash" := by
  exact ⟨rfl, rfl⟩

/-- C8: when the attempt-log INSERT fails, `logAuthAttempt`'s completion
callback ignores the error, so an otherwise successful call still returns
the 200 success response while the log entry is silently dropped (the
database state, including `auth_logs`, is returned unchanged) — instead of
failing the call with an internal error as the spec requires. -/
theorem C8_log_write_failure_swallowed :
    authenticate demoDB "001" "1234" "ip0" "agent0" "t0" false true =
      (demoDB, .ok (stripPinHash demoFirefighter)) := by
  decide

/-- C9: a call with a missing (empty) badge or PIN fails fast with the 400
validation error `Badge and PIN are required`, mutates no credential
record, and still logs exactly one failed attempt carrying whatever badge
value was supplied (possibly empty); the code's literal reason is
`Missing badge or PIN`. -/
theorem C9_missing_credentials_fail_fast
    (d : AuthDB) (badge pin i u n : String)
    (h : badge = "" ∨ pin = "") :
    authenticate d badge pin i u n false false =
      ({ d with auth_logs := d.auth_logs ++
          [⟨badge, false, i, u, some "Missing badge or PIN"⟩] },
       .badRequest "Badge and PIN are required") := by
  rw [authenticate_missing d badge pin i u n false false h]
  rfl

/-- C9 witness: empty badge with a non-empty PIN. -/
theorem C9_witness :
    ("" = "" ∨ "1234" = "") ∧
    authenticate demoDB "" "1234" "ip" "ua" "t1" false false =
      ({ demoDB with auth_logs := demoDB.auth_logs ++
          [⟨"", false, "ip", "ua", some "Missing badge or PIN"⟩] },
       .badRequest "Badge and PIN are required") :=
  ⟨Or.inl rfl,
   C9_missing_credentials_fail_fast demoDB "" "1234" "ip" "ua" "t1"
     (Or.inl rfl)⟩

/-- C10: when the credential lookup itself errors, the call answers with
the 500 internal error and leaves the whole database state — attempt log
and credential records — unchanged; every fault-free call, by contrast,
appends a log entry. -/
theorem C10_lookup_error_leaves_log_unchanged
    (d : AuthDB) (badge pin i u n : String)
    (hb : ¬badge = "") (hp : ¬pin = "") :
    authenticate d badge pin i u n true false =
      (d, .serverError "Internal server error") ∧
    (∃ e : AuthLog,
      ((authenticate d badge pin i u n false false).1).auth_logs =
        d.auth_logs ++ [e]) :=
  ⟨authenticate_lookup_error d badge pin i u n false hb hp,
   authenticate_appends_one_log d badge pin i u n⟩

/-- C10 witness: badge 001 with a lookup fault. -/
theorem C10_witness :
    (¬"001" = "") ∧ (¬"1234" = "") ∧
    authenticate demoDB "001" "1234" "ip" "ua" "t1" true false =
      (demoDB, .serverError "Internal server error") := by
  have h := C10_lookup_error_leaves_log_unchanged demoDB "001" "1234" "ip"
    "ua" "t1" (by decide) (by decide)
  exact ⟨by decide, by decide, h.1⟩

end FireTracker
